import Mathlib

/-
  Shallow embedding of the pulputin irrigation controller
  (tuomas2/pulputin), control core of src/main.cpp, together with the
  clock-correction step of the winter (pump + heater) revision.

  Machine integers are modelled as Nat with explicit reductions modulo
  the C width at each point where the C code converts or wraps:
  uint64 arithmetic wraps modulo U64, uint32 modulo U32, uint16 modulo
  U16.  Unsigned subtraction a - b on uint64 is sub64 a b.
-/

namespace Pulputin

def U64 : Nat := 18446744073709551616
def U32 : Nat := 4294967296
def U16 : Nat := 65536

/-- C uint64 subtraction: (a - b) mod 2^64, for a b < 2^64. -/
def sub64 (a b : Nat) : Nat := (U64 + a - b) % U64

/-- C cast of a uint32 value to int32_t (two's complement reinterpretation). -/
def toInt32 (n : Nat) : Int := if n < 2147483648 then (n : Int) else (n : Int) - (U32 : Int)

/-- Wrap of a signed value into int32 range (models int32 overflow behaviour). -/
def int32wrap (z : Int) : Int := (z + 2147483648) % (U32 : Int) - 2147483648

/-- Conversion of a signed value to uint64 (two's complement, mod 2^64). -/
def u64ofInt (z : Int) : Nat := (z % (U64 : Int)).toNat

-- Constants of src/main.cpp
def PUMP_WATER_SPEED : Nat := 116
def ONE_HOUR : Nat := 3600000
def ONE_MINUTE : Nat := ONE_HOUR / 60
def CONTAINER_SIZE : Nat := 28000
def PUMP_PORTION : Nat := 100
def PERIOD_TIME : Nat := 15 * ONE_MINUTE
def WET_TIME : Nat := ONE_HOUR
def FORCE_STOP_TIME : Nat := ONE_HOUR
def MOTION_STOP_TIME : Nat := ONE_MINUTE * 15
def EEPROM_CHECKVALUE : Nat := 170
def EPOCH_OFFSET : Nat := 1694490000

/-- mlToMs of src/main.cpp: 100000 * millilitres / PUMP_WATER_SPEED, the
product computed in 32-bit unsigned arithmetic. -/
def mlToMs (millilitres : Nat) : Nat := (100000 * millilitres) % U32 / PUMP_WATER_SPEED

/-- msToMl of src/main.cpp: milliseconds * PUMP_WATER_SPEED / 100000 in
uint64 arithmetic, the result truncated to uint32 at return. -/
def msToMl (milliseconds : Nat) : Nat :=
  (milliseconds * PUMP_WATER_SPEED % U64 / 100000) % U32

def PUMP_TIME : Nat := mlToMs PUMP_PORTION
def IDLE_TIME : Nat := PERIOD_TIME - PUMP_TIME

/-- In-memory mutable state of the controller: the module-level globals of
src/main.cpp that the control core reads and writes. -/
structure Ram where
  timeNow : Nat
  dateDay : Nat
  epochAtStart : Nat
  lastHourStarted : Nat
  pumpStartedMs : Nat
  idleStartedMs : Nat
  lastWetMs : Nat
  forceStopStartedMs : Nat
  motionStopStartedMs : Nat
  statisticsCurrentDay : Nat
  wasMotionStopped : Bool
  wasForceStopped : Bool
  wasWet : Bool
  pumpRunning : Bool
  waterLevel : Bool
  maxWaterLevel : Bool
  motionSns : Bool
  forceStopPressed : Bool
  resetButtonPressed : Bool
  backlightButtonPressed : Bool
  backlightOn : Bool
  resetContainerPressed : Bool
  pumpStatistics : List Nat
  pumpedTotal : Nat
deriving DecidableEq

/-- The EEPROM record as addressed by src/main.cpp: the sentinel byte, the
24 uint16 statistics slots, the uint16 total, four 8-byte timestamps and
the current-day byte. -/
structure Eeprom where
  configured : Nat
  slots : List Nat
  total : Nat
  lastHourStarted : Nat
  pumpStarted : Nat
  idleStarted : Nat
  lastWet : Nat
  statsDay : Nat
deriving DecidableEq

/-- saveEeprom of src/main.cpp: writes statistics, total, the four
persisted timestamps and the day marker.  It does not write the sentinel
and does not touch the force-stop or motion-stop cooldown state (the
Eeprom record has no field for them). -/
def saveEeprom (r : Ram) (e : Eeprom) : Eeprom :=
  { e with
    slots := r.pumpStatistics
    total := r.pumpedTotal
    lastHourStarted := r.lastHourStarted
    pumpStarted := r.pumpStartedMs
    idleStarted := r.idleStartedMs
    lastWet := r.lastWetMs
    statsDay := r.statisticsCurrentDay }

/-- resetEEPROM of src/main.cpp: zero all slots and the total, set the
timestamps from timeNow, stamp the sentinel and save. -/
def resetEEPROM (r : Ram) (e : Eeprom) : Ram × Eeprom :=
  let r2 := { r with
    pumpStatistics := List.replicate 24 0
    pumpedTotal := 0
    lastHourStarted := r.timeNow
    pumpStartedMs := r.timeNow
    idleStartedMs := r.timeNow
    lastWetMs := 0
    forceStopStartedMs := 0
    statisticsCurrentDay := r.dateDay }
  (r2, saveEeprom r2 { e with configured := EEPROM_CHECKVALUE })

/-- readEeprom of src/main.cpp: on sentinel mismatch first resetEEPROM,
then read back every persisted field. -/
def readEeprom (r : Ram) (e : Eeprom) : Ram × Eeprom :=
  let p := if e.configured ≠ EEPROM_CHECKVALUE then resetEEPROM r e else (r, e)
  ({ p.1 with
      pumpStatistics := p.2.slots
      pumpedTotal := p.2.total
      lastHourStarted := p.2.lastHourStarted
      pumpStartedMs := p.2.pumpStarted
      idleStartedMs := p.2.idleStarted
      lastWetMs := p.2.lastWet
      statisticsCurrentDay := p.2.statsDay }, p.2)

/-- dayPassed of src/main.cpp: shift the 24 slots toward higher indices
and zero slot 0. -/
def dayPassed (r : Ram) : Ram :=
  { r with pumpStatistics := 0 :: r.pumpStatistics.take 23 }

def resetMaxWaterLevel (r : Ram) : Ram := { r with maxWaterLevel := r.waterLevel }

def updateMaxWaterLevel (r : Ram) : Ram :=
  if r.waterLevel then { r with maxWaterLevel := true } else r

def wetRecently (r : Ram) : Bool :=
  r.wasWet && decide (sub64 r.timeNow r.lastWetMs < WET_TIME)

def forceStoppedRecently (r : Ram) : Bool :=
  r.wasForceStopped && decide (sub64 r.timeNow r.forceStopStartedMs < FORCE_STOP_TIME)

def motionStoppedRecently (r : Ram) : Bool :=
  r.wasMotionStopped && decide (sub64 r.timeNow r.motionStopStartedMs < MOTION_STOP_TIME)

def cantStart (r : Ram) : Bool :=
  wetRecently r || forceStoppedRecently r || motionStoppedRecently r

/-- Per-cycle sensor and command samples consumed by loop and readInput
(buttons are already inverted: true means pressed). -/
structure Inputs where
  millis : Nat
  rtcUnix : Nat
  day : Nat
  containerBtn : Bool
  resetBtn : Bool
  backlightBtn : Bool
  forceBtn : Bool
  motionPin : Bool
  waterLevelPin : Bool
deriving DecidableEq

/-- Container-refill block of readInput: on a rising edge of button 6
only pumpedTotal is zeroed and the state saved. -/
def readInputContainer (r : Ram) (e : Eeprom) (btn : Bool) : Ram × Eeprom :=
  let p := if btn ≠ r.resetContainerPressed ∧ btn = true then
      ({ r with pumpedTotal := 0 }, saveEeprom { r with pumpedTotal := 0 } e)
    else (r, e)
  ({ p.1 with resetContainerPressed := btn }, p.2)

/-- Full-reset block of readInput: on a rising edge of button 8,
resetEEPROM then readEeprom. -/
def readInputReset (r : Ram) (e : Eeprom) (btn : Bool) : Ram × Eeprom :=
  let p := if btn ≠ r.resetButtonPressed ∧ btn = true then
      readEeprom (resetEEPROM r e).1 (resetEEPROM r e).2
    else (r, e)
  ({ p.1 with resetButtonPressed := btn }, p.2)

/-- Backlight block of readInput (the LCD calls are external I/O). -/
def readInputBacklight (r : Ram) (btn : Bool) : Ram :=
  let r2 := if btn ≠ r.backlightButtonPressed ∧ btn = true then
      { r with backlightOn := !r.backlightOn }
    else r
  { r2 with backlightButtonPressed := btn }

/-- Force-stop block of readInput: on a rising edge of button 4, record
the trigger time and set the ever-triggered flag. -/
def readInputForce (r : Ram) (btn : Bool) : Ram :=
  let r2 := if btn ≠ r.forceStopPressed ∧ btn = true then
      { r with forceStopStartedMs := r.timeNow, wasForceStopped := true }
    else r
  { r2 with forceStopPressed := btn }

/-- Motion block of readInput: while the motion pin is high, record the
trigger time and set the ever-triggered flag. -/
def readInputMotion (r : Ram) (pin : Bool) : Ram :=
  let r2 := { r with motionSns := pin }
  if r2.motionSns then
    { r2 with motionStopStartedMs := r2.timeNow, wasMotionStopped := true }
  else r2

/-- readInput of src/main.cpp, block by block in source order, ending
with the water-level sample. -/
def readInput (r : Ram) (e : Eeprom) (inp : Inputs) : Ram × Eeprom :=
  let p1 := readInputContainer r e inp.containerBtn
  let p2 := readInputReset p1.1 p1.2 inp.resetBtn
  let r3 := readInputBacklight p2.1 inp.backlightBtn
  let r4 := readInputForce r3 inp.forceBtn
  let r5 := readInputMotion r4 inp.motionPin
  ({ r5 with waterLevel := inp.waterLevelPin }, p2.2)

/-- startPump of src/main.cpp (pin writes are external I/O). -/
def startPump (r : Ram) (e : Eeprom) : Ram × Eeprom :=
  let r2 := resetMaxWaterLevel { r with pumpRunning := true, pumpStartedMs := r.timeNow }
  (r2, saveEeprom r2 e)

/-- Slot-0 accumulation pumpStatistics[0] += pumped in uint16 arithmetic. -/
def listAddHead (v : Nat) (l : List Nat) : List Nat :=
  match l with
  | [] => []
  | x :: xs => ((x + v) % U16) :: xs

/-- stopPump of src/main.cpp: the delta is msToMl of the elapsed uint64
time, truncated to uint16 on assignment to pumped; it is added to slot 0
and to pumpedTotal, idleStartedMs is reset and the state saved. -/
def stopPump (r : Ram) (e : Eeprom) : Ram × Eeprom :=
  let pumped := msToMl (sub64 r.timeNow r.pumpStartedMs) % U16
  let r2 := { r with
    pumpRunning := false
    pumpStatistics := listAddHead pumped r.pumpStatistics
    pumpedTotal := (r.pumpedTotal + pumped) % U16
    idleStartedMs := r.timeNow }
  (r2, saveEeprom r2 e)

def stopPumpTimePassed (r : Ram) : Bool := decide (sub64 r.timeNow r.pumpStartedMs > PUMP_TIME)

def idleTimePassed (r : Ram) : Bool := decide (sub64 r.timeNow r.idleStartedMs > IDLE_TIME)

/-- First two statements of manageWaterPump: updateMaxWaterLevel, then
latch the wet timestamp and flag while the latched level is high. -/
def pumpWetStep (r : Ram) : Ram :=
  let r2 := updateMaxWaterLevel r
  if r2.maxWaterLevel then { r2 with lastWetMs := r2.timeNow, wasWet := true } else r2

/-- manageWaterPump of src/main.cpp. -/
def manageWaterPump (r : Ram) (e : Eeprom) : Ram × Eeprom :=
  let r2 := pumpWetStep r
  if r2.pumpRunning then
    if stopPumpTimePassed r2 || cantStart r2 then stopPump r2 e else (r2, e)
  else if idleTimePassed r2 then
    if !r2.maxWaterLevel && !cantStart r2 then startPump r2 e
    else ({ resetMaxWaterLevel r2 with idleStartedMs := r2.timeNow }, e)
  else (r2, e)

/-- Day-rollover step of loop: when the calendar day of the freshly set
dateTimeNow differs from the stored marker, shift the statistics once,
update the marker and save. -/
def loopDayStep (r : Ram) (e : Eeprom) : Ram × Eeprom :=
  if r.dateDay ≠ r.statisticsCurrentDay then
    let r2 := { dayPassed r with statisticsCurrentDay := r.dateDay }
    (r2, saveEeprom r2 e)
  else (r, e)

/-- Clock-correction step of loop in src/main.cpp: when more than an hour
has passed since lastHourStarted and the pump is not running, the epoch
base is corrected additively by the difference between the external RTC
reading and the derived unixtime, and timeNow is recomputed. -/
def loopClockStep (r : Ram) (e : Eeprom) (rtcUnix millis : Nat) : Ram × Eeprom :=
  if sub64 r.timeNow r.lastHourStarted > ONE_HOUR ∧ r.pumpRunning = false then
    let dt := (r.timeNow / 1000 + EPOCH_OFFSET) % U32
    let correction := toInt32 ((U32 + rtcUnix % U32 - dt) % U32)
    let r2 := { r with
      epochAtStart := u64ofInt ((r.epochAtStart : Int) + int32wrap (correction * 1000)) }
    let r3 := { r2 with timeNow := (r2.epochAtStart + millis) % U64 }
    let r4 := { r3 with lastHourStarted := r3.timeNow }
    (r4, saveEeprom r4 e)
  else (r, e)

/-- loop of src/main.cpp (display update is external I/O). -/
def loop (r : Ram) (e : Eeprom) (inp : Inputs) : Ram × Eeprom :=
  let r1 := { r with timeNow := (r.epochAtStart + inp.millis) % U64, dateDay := inp.day }
  let p2 := loopDayStep r1 e
  let p3 := loopClockStep p2.1 p2.2 inp.rtcUnix inp.millis
  let p4 := readInput p3.1 p3.2 inp
  manageWaterPump p4.1 p4.2

/-- State of the C++ module-level globals right after a process restart,
before setup runs: numeric globals zero, flags false. -/
def bootRam : Ram := {
  timeNow := 0
  dateDay := 0
  epochAtStart := 0
  lastHourStarted := 0
  pumpStartedMs := 0
  idleStartedMs := 0
  lastWetMs := 0
  forceStopStartedMs := 0
  motionStopStartedMs := 0
  statisticsCurrentDay := 0
  wasMotionStopped := false
  wasForceStopped := false
  wasWet := false
  pumpRunning := false
  waterLevel := false
  maxWaterLevel := false
  motionSns := false
  forceStopPressed := false
  resetButtonPressed := false
  backlightButtonPressed := false
  backlightOn := false
  resetContainerPressed := false
  pumpStatistics := List.replicate 24 0
  pumpedTotal := 0 }

/-
  Winter (pump + heater) revision, second document of
  src/unnamed/part_000: only what the clock-correction claim needs, the
  globals, saveEeprom and the clock-correction step of loop.  Constants
  shared with src/main.cpp (ONE_HOUR, EPOCH_OFFSET, widths) are reused.
-/

namespace Winter

/-- Module-level globals of the winter revision that its saveEeprom and
clock-correction step touch or read. -/
structure Ram where
  timeNow : Nat
  epochAtStart : Nat
  lastHourStarted : Nat
  pumpStartedMs : Nat
  idleStartedMs : Nat
  heaterStartedMs : Nat
  heaterIdleStartedMs : Nat
  lastWetMs : Nat
  forceStopStartedMs : Nat
  motionStopStartedMs : Nat
  statisticsCurrentDay : Nat
  displayMode : Nat
  wasMotionStopped : Bool
  wasForceStopped : Bool
  wasWet : Bool
  pumpRunning : Bool
  heaterRunning : Bool
  pumpStatistics : List Nat
  pumpedTotal : Nat
deriving DecidableEq

/-- EEPROM record of the winter revision. -/
structure Eeprom where
  configured : Nat
  slots : List Nat
  total : Nat
  lastHourStarted : Nat
  pumpStarted : Nat
  idleStarted : Nat
  heaterStarted : Nat
  lastWet : Nat
  statsDay : Nat
  displayMode : Nat
deriving DecidableEq

/-- saveEeprom of the winter revision. -/
def saveEeprom (r : Ram) (e : Eeprom) : Eeprom :=
  { e with
    slots := r.pumpStatistics
    total := r.pumpedTotal
    lastHourStarted := r.lastHourStarted
    pumpStarted := r.pumpStartedMs
    idleStarted := r.idleStartedMs
    heaterStarted := r.heaterStartedMs
    lastWet := r.lastWetMs
    statsDay := r.statisticsCurrentDay
    displayMode := r.displayMode }

/-- Clock-correction step of loop in the winter revision: the guard
tests only pumpRunning, although this revision also drives a heater. -/
def loopClockStep (r : Ram) (e : Eeprom) (rtcUnix millis : Nat) : Ram × Eeprom :=
  if sub64 r.timeNow r.lastHourStarted > ONE_HOUR ∧ r.pumpRunning = false then
    let dt := (r.timeNow / 1000 + EPOCH_OFFSET) % U32
    let correction := toInt32 ((U32 + rtcUnix % U32 - dt) % U32)
    let r2 := { r with
      epochAtStart := u64ofInt ((r.epochAtStart : Int) + int32wrap (correction * 1000)) }
    let r3 := { r2 with timeNow := (r2.epochAtStart + millis) % U64 }
    let r4 := { r3 with lastHourStarted := r3.timeNow }
    (r4, saveEeprom r4 e)
  else (r, e)

end Winter

/-
  Concrete states used by witnesses and counterexamples.
-/

/-- An initialized EEPROM image: sentinel stamped, everything else zero. -/
def e0 : Eeprom where
  configured := 170
  slots := List.replicate 24 0
  total := 0
  lastHourStarted := 0
  pumpStarted := 0
  idleStarted := 0
  lastWet := 0
  statsDay := 0

/-- An erased EEPROM image: sentinel not stamped, junk contents. -/
def blankEeprom : Eeprom where
  configured := 0
  slots := List.replicate 24 9
  total := 9
  lastHourStarted := 9
  pumpStarted := 9
  idleStarted := 9
  lastWet := 9
  statsDay := 9

def c2ram : Ram := { bootRam with pumpRunning := true, timeNow := 50000, pumpStartedMs := 40000 }

def c2inp : Inputs where
  millis := 0
  rtcUnix := 0
  day := 0
  containerBtn := false
  resetBtn := false
  backlightBtn := false
  forceBtn := true
  motionPin := false
  waterLevelPin := false

def c3ram : Ram := { bootRam with pumpStatistics := 7 :: List.replicate 23 0, pumpedTotal := 42 }

def c3inp : Inputs where
  millis := 0
  rtcUnix := 0
  day := 0
  containerBtn := true
  resetBtn := false
  backlightBtn := false
  forceBtn := false
  motionPin := false
  waterLevelPin := false

def c4ram : Ram := { bootRam with pumpRunning := true, timeNow := 56496552, pumpStartedMs := 0 }

def c4okRam : Ram := { bootRam with pumpRunning := true, timeNow := 86207, pumpStartedMs := 0 }

def c8ram : Ram := { bootRam with pumpedTotal := 5, lastWetMs := 11, wasWet := true }

/-- Overwrite of exactly the four cooldown fields that the EEPROM record
has no slot for. -/
def cooldownUpdate (s : Ram) (v1 v2 : Nat) (b1 b2 : Bool) : Ram :=
  { s with
    forceStopStartedMs := v1
    motionStopStartedMs := v2
    wasForceStopped := b1
    wasMotionStopped := b2 }

def c9ram : Ram :=
  { bootRam with
    wasForceStopped := true
    forceStopStartedMs := 123
    wasMotionStopped := true
    motionStopStartedMs := 456 }

def c10ram : Ram := { bootRam with timeNow := 900000, idleStartedMs := 0, maxWaterLevel := true }

/-- Winter-revision state with the heater energized, the pump off and the
hourly clock correction due. -/
def winterHeaterRam : Winter.Ram where
  timeNow := 3600001
  epochAtStart := 0
  lastHourStarted := 0
  pumpStartedMs := 0
  idleStartedMs := 0
  heaterStartedMs := 0
  heaterIdleStartedMs := 0
  lastWetMs := 0
  forceStopStartedMs := 0
  motionStopStartedMs := 0
  statisticsCurrentDay := 0
  displayMode := 0
  wasMotionStopped := false
  wasForceStopped := false
  wasWet := false
  pumpRunning := false
  heaterRunning := true
  pumpStatistics := List.replicate 24 0
  pumpedTotal := 0

def winterEeprom0 : Winter.Eeprom where
  configured := 170
  slots := List.replicate 24 0
  total := 0
  lastHourStarted := 0
  pumpStarted := 0
  idleStarted := 0
  heaterStarted := 0
  lastWet := 0
  statsDay := 0
  displayMode := 0

/-
  Helper lemmas, shared by several claims.
-/

theorem sub64_self (a : Nat) : sub64 a a = 0 := by unfold sub64 U64; omega

theorem sub64_add_left (t0 d : Nat) (h : t0 + d < U64) : sub64 (t0 + d) t0 = d := by
  unfold U64 at h; unfold sub64 U64; omega

theorem sub64_eq_sub (a b : Nat) (h1 : b ≤ a) (h2 : a < U64) : sub64 a b = a - b := by
  unfold U64 at h2; unfold sub64 U64; omega

theorem readInputContainer_frame (r : Ram) (e : Eeprom) (b : Bool) :
    (readInputContainer r e b).1.pumpRunning = r.pumpRunning
  ∧ (readInputContainer r e b).1.timeNow = r.timeNow
  ∧ (readInputContainer r e b).1.forceStopPressed = r.forceStopPressed
  ∧ (readInputContainer r e b).1.wasForceStopped = r.wasForceStopped := by
  simp only [readInputContainer]; split <;> simp

theorem resetEEPROM_frame (r : Ram) (e : Eeprom) :
    (resetEEPROM r e).1.pumpRunning = r.pumpRunning
  ∧ (resetEEPROM r e).1.timeNow = r.timeNow
  ∧ (resetEEPROM r e).1.forceStopPressed = r.forceStopPressed
  ∧ (resetEEPROM r e).1.wasForceStopped = r.wasForceStopped := by
  simp [resetEEPROM]

theorem readEeprom_frame (r : Ram) (e : Eeprom) :
    (readEeprom r e).1.pumpRunning = r.pumpRunning
  ∧ (readEeprom r e).1.timeNow = r.timeNow
  ∧ (readEeprom r e).1.forceStopPressed = r.forceStopPressed
  ∧ (readEeprom r e).1.wasForceStopped = r.wasForceStopped := by
  simp only [readEeprom]; split <;> simp [resetEEPROM]

theorem readInputReset_frame (r : Ram) (e : Eeprom) (b : Bool) :
    (readInputReset r e b).1.pumpRunning = r.pumpRunning
  ∧ (readInputReset r e b).1.timeNow = r.timeNow
  ∧ (readInputReset r e b).1.forceStopPressed = r.forceStopPressed
  ∧ (readInputReset r e b).1.wasForceStopped = r.wasForceStopped := by
  simp only [readInputReset]; split
  · obtain ⟨h1, h2, h3, h4⟩ := readEeprom_frame (resetEEPROM r e).1 (resetEEPROM r e).2
    obtain ⟨g1, g2, g3, g4⟩ := resetEEPROM_frame r e
    simp [h1, h2, h3, h4, g1, g2, g3, g4]
  · simp

theorem readInputBacklight_frame (r : Ram) (b : Bool) :
    (readInputBacklight r b).pumpRunning = r.pumpRunning
  ∧ (readInputBacklight r b).timeNow = r.timeNow
  ∧ (readInputBacklight r b).forceStopPressed = r.forceStopPressed
  ∧ (readInputBacklight r b).wasForceStopped = r.wasForceStopped := by
  simp only [readInputBacklight]; split <;> simp

theorem readInputForce_facts (r : Ram) (b : Bool)
    (hedge : r.forceStopPressed = false) (hbtn : b = true) :
    (readInputForce r b).pumpRunning = r.pumpRunning
  ∧ (readInputForce r b).timeNow = r.timeNow
  ∧ (readInputForce r b).wasForceStopped = true
  ∧ (readInputForce r b).forceStopStartedMs = r.timeNow := by
  simp [readInputForce, hedge, hbtn]

theorem readInputMotion_frame (r : Ram) (b : Bool) :
    (readInputMotion r b).pumpRunning = r.pumpRunning
  ∧ (readInputMotion r b).timeNow = r.timeNow
  ∧ (readInputMotion r b).forceStopStartedMs = r.forceStopStartedMs
  ∧ (readInputMotion r b).wasForceStopped = r.wasForceStopped := by
  simp only [readInputMotion]; split <;> simp

theorem readInput_force_effect (r : Ram) (e : Eeprom) (inp : Inputs)
    (hedge : r.forceStopPressed = false) (hbtn : inp.forceBtn = true) :
    (readInput r e inp).1.pumpRunning = r.pumpRunning
  ∧ (readInput r e inp).1.wasForceStopped = true
  ∧ (readInput r e inp).1.forceStopStartedMs = (readInput r e inp).1.timeNow := by
  obtain ⟨c1, c2, c3, c4⟩ := readInputContainer_frame r e inp.containerBtn
  obtain ⟨s1, s2, s3, s4⟩ := readInputReset_frame (readInputContainer r e inp.containerBtn).1
    (readInputContainer r e inp.containerBtn).2 inp.resetBtn
  obtain ⟨b1, b2, b3, b4⟩ := readInputBacklight_frame
    (readInputReset (readInputContainer r e inp.containerBtn).1
      (readInputContainer r e inp.containerBtn).2 inp.resetBtn).1 inp.backlightBtn
  obtain ⟨f1, f2, f3, f4⟩ := readInputForce_facts
    (readInputBacklight (readInputReset (readInputContainer r e inp.containerBtn).1
      (readInputContainer r e inp.containerBtn).2 inp.resetBtn).1 inp.backlightBtn)
    inp.forceBtn (by rw [b3, s3, c3, hedge]) hbtn
  obtain ⟨m1, m2, m3, m4⟩ := readInputMotion_frame
    (readInputForce (readInputBacklight (readInputReset (readInputContainer r e inp.containerBtn).1
      (readInputContainer r e inp.containerBtn).2 inp.resetBtn).1 inp.backlightBtn) inp.forceBtn)
    inp.motionPin
  refine ⟨?_, ?_, ?_⟩
  · simp only [readInput]; rw [m1, f1, b1, s1, c1]
  · simp only [readInput]; rw [m4, f3]
  · simp only [readInput]; rw [m3, f4, m2, f2]

theorem forceStoppedRecently_now (r : Ram) (h1 : r.wasForceStopped = true)
    (h2 : r.forceStopStartedMs = r.timeNow) : forceStoppedRecently r = true := by
  unfold forceStoppedRecently; rw [h1, h2, sub64_self]; decide

theorem cantStart_of_force (r : Ram) (h1 : r.wasForceStopped = true)
    (h2 : r.forceStopStartedMs = r.timeNow) : cantStart r = true := by
  unfold cantStart; rw [forceStoppedRecently_now r h1 h2]; simp

theorem pumpWetStep_frame (r : Ram) :
    (pumpWetStep r).pumpRunning = r.pumpRunning
  ∧ (pumpWetStep r).timeNow = r.timeNow
  ∧ (pumpWetStep r).wasForceStopped = r.wasForceStopped
  ∧ (pumpWetStep r).forceStopStartedMs = r.forceStopStartedMs
  ∧ (pumpWetStep r).idleStartedMs = r.idleStartedMs
  ∧ (pumpWetStep r).waterLevel = r.waterLevel := by
  simp only [pumpWetStep, updateMaxWaterLevel]
  repeat' split
  all_goals simp

theorem idleTimePassed_pumpWetStep (r : Ram) :
    idleTimePassed (pumpWetStep r) = idleTimePassed r := by
  unfold idleTimePassed
  rw [(pumpWetStep_frame r).2.1, (pumpWetStep_frame r).2.2.2.2.1]

theorem manageWaterPump_stop_of_cantStart (r : Ram) (e : Eeprom)
    (hrun : r.pumpRunning = true) (hcs : cantStart (pumpWetStep r) = true) :
    (manageWaterPump r e).1.pumpRunning = false := by
  have hp : (pumpWetStep r).pumpRunning = true := by rw [(pumpWetStep_frame r).1, hrun]
  simp only [manageWaterPump, hp, hcs]
  simp [stopPump]

theorem manageWaterPump_no_start (r : Ram) (e : Eeprom)
    (h1 : r.pumpRunning = false) (h2 : idleTimePassed r = false) :
    (manageWaterPump r e).1.pumpRunning = false := by
  have hp : (pumpWetStep r).pumpRunning = false := by rw [(pumpWetStep_frame r).1, h1]
  have hi : idleTimePassed (pumpWetStep r) = false := by rw [idleTimePassed_pumpWetStep, h2]
  simp [manageWaterPump, hp, hi]

/-
  Claim theorems.
-/

/-- Claim C1: each recent-event predicate holds exactly when its
ever-triggered flag is set and the uint64 difference between timeNow and
the trigger timestamp is strictly below the fixed window; hence after a
trigger at t0 with no other inhibition active, cantStart at time t0 + d
equals the test d less than the window, so it is true strictly before
the window elapses and false at the window or later. -/
theorem cooldown_window_exact (r : Ram) (t0 d : Nat) (h : t0 + d < U64) :
    (wetRecently r = true ↔ (r.wasWet = true ∧ sub64 r.timeNow r.lastWetMs < WET_TIME))
  ∧ (forceStoppedRecently r = true ↔
      (r.wasForceStopped = true ∧ sub64 r.timeNow r.forceStopStartedMs < FORCE_STOP_TIME))
  ∧ (motionStoppedRecently r = true ↔
      (r.wasMotionStopped = true ∧ sub64 r.timeNow r.motionStopStartedMs < MOTION_STOP_TIME))
  ∧ cantStart { bootRam with wasWet := true, lastWetMs := t0, timeNow := t0 + d }
      = decide (d < WET_TIME)
  ∧ cantStart { bootRam with wasForceStopped := true, forceStopStartedMs := t0, timeNow := t0 + d }
      = decide (d < FORCE_STOP_TIME)
  ∧ cantStart { bootRam with wasMotionStopped := true, motionStopStartedMs := t0, timeNow := t0 + d }
      = decide (d < MOTION_STOP_TIME) := by
  refine ⟨?_, ?_, ?_, ?_, ?_, ?_⟩
  · simp [wetRecently]
  · simp [forceStoppedRecently]
  · simp [motionStoppedRecently]
  · simp [cantStart, wetRecently, forceStoppedRecently, motionStoppedRecently, bootRam,
      sub64_add_left t0 d h]
  · simp [cantStart, wetRecently, forceStoppedRecently, motionStoppedRecently, bootRam,
      sub64_add_left t0 d h]
  · simp [cantStart, wetRecently, forceStoppedRecently, motionStoppedRecently, bootRam,
      sub64_add_left t0 d h]

/-- Claim C1 witness: cantStart evaluated one millisecond before each
window, at the window and one millisecond after it. -/
theorem cooldown_window_exact_witness :
    (10 + 3599999 < U64)
  ∧ cantStart { bootRam with wasWet := true, lastWetMs := 10, timeNow := 10 + 3599999 } = true
  ∧ cantStart { bootRam with wasWet := true, lastWetMs := 10, timeNow := 10 + 3600000 } = false
  ∧ cantStart { bootRam with wasWet := true, lastWetMs := 10, timeNow := 10 + 3600001 } = false
  ∧ cantStart { bootRam with wasForceStopped := true, forceStopStartedMs := 10, timeNow := 10 + 3599999 } = true
  ∧ cantStart { bootRam with wasForceStopped := true, forceStopStartedMs := 10, timeNow := 10 + 3600001 } = false
  ∧ cantStart { bootRam with wasMotionStopped := true, motionStopStartedMs := 10, timeNow := 10 + 899999 } = true
  ∧ cantStart { bootRam with wasMotionStopped := true, motionStopStartedMs := 10, timeNow := 10 + 900001 } = false := by
  refine ⟨by decide, ?_, ?_, ?_, ?_, ?_, ?_, ?_⟩
  · exact (cooldown_window_exact bootRam 10 3599999 (by decide)).2.2.2.1.trans (by decide)
  · exact (cooldown_window_exact bootRam 10 3600000 (by decide)).2.2.2.1.trans (by decide)
  · exact (cooldown_window_exact bootRam 10 3600001 (by decide)).2.2.2.1.trans (by decide)
  · exact (cooldown_window_exact bootRam 10 3599999 (by decide)).2.2.2.2.1.trans (by decide)
  · exact (cooldown_window_exact bootRam 10 3600001 (by decide)).2.2.2.2.1.trans (by decide)
  · exact (cooldown_window_exact bootRam 10 899999 (by decide)).2.2.2.2.2.trans (by decide)
  · exact (cooldown_window_exact bootRam 10 900001 (by decide)).2.2.2.2.2.trans (by decide)

/-- Claim C2: a ForceStop edge received while the pump is Active makes
cantStart true in the same cycle, so manageWaterPump stops the pump in
that very cycle even though the on-duration need not have elapsed. -/
theorem force_stop_stops_pump_same_cycle (r : Ram) (e : Eeprom) (inp : Inputs)
    (hrun : r.pumpRunning = true) (hedge : r.forceStopPressed = false)
    (hbtn : inp.forceBtn = true) :
    (manageWaterPump (readInput r e inp).1 (readInput r e inp).2).1.pumpRunning = false := by
  obtain ⟨h1, h2, h3⟩ := readInput_force_effect r e inp hedge hbtn
  apply manageWaterPump_stop_of_cantStart
  · rw [h1, hrun]
  · apply cantStart_of_force
    · rw [(pumpWetStep_frame _).2.2.1, h2]
    · rw [(pumpWetStep_frame _).2.2.2.1, h3, (pumpWetStep_frame _).2.1]

/-- Claim C2 witness: a concrete mid-Active cycle with the force button
freshly pressed. -/
theorem force_stop_stops_pump_same_cycle_witness :
    c2ram.pumpRunning = true ∧ c2ram.forceStopPressed = false ∧ c2inp.forceBtn = true
  ∧ (manageWaterPump (readInput c2ram e0 c2inp).1 (readInput c2ram e0 c2inp).2).1.pumpRunning
      = false :=
  ⟨by decide, by decide, by decide,
    force_stop_stops_pump_same_cycle c2ram e0 c2inp (by decide) (by decide) (by decide)⟩

/-- Claim C3 counterexample: a container-refill edge handled by readInput
zeroes pumpedTotal but leaves slot 0 at its old nonzero value, so the
command does not perform a full reset of the 24 statistics slots. -/
theorem container_refill_keeps_slots_cex :
    (readInput c3ram e0 c3inp).1.pumpedTotal = 0
  ∧ (readInput c3ram e0 c3inp).1.pumpStatistics.headD 0 = 7
  ∧ (7 : Nat) ≠ 0 := by decide

/-- Claim C3 amended: after a container-refill command edge (and no
full-reset edge in the same cycle) the lifetime total is zero and the 24
statistics slots are unchanged. -/
theorem container_refill_total_only (r : Ram) (e : Eeprom) (inp : Inputs)
    (hedge : r.resetContainerPressed = false) (hc : inp.containerBtn = true)
    (hr : inp.resetBtn = false) :
    (readInput r e inp).1.pumpedTotal = 0
  ∧ (readInput r e inp).1.pumpStatistics = r.pumpStatistics := by
  simp only [readInput, readInputContainer, readInputReset, readInputBacklight, readInputForce,
    readInputMotion, hedge, hc, hr]
  repeat' split
  all_goals simp_all

/-- Claim C3 amended witness: container refill on a state with nonzero
slot 0 and nonzero total. -/
theorem container_refill_total_only_witness :
    c3ram.resetContainerPressed = false ∧ c3inp.containerBtn = true ∧ c3inp.resetBtn = false
  ∧ (readInput c3ram e0 c3inp).1.pumpedTotal = 0
  ∧ (readInput c3ram e0 c3inp).1.pumpStatistics = c3ram.pumpStatistics :=
  ⟨by decide, by decide, by decide,
    (container_refill_total_only c3ram e0 c3inp (by decide) (by decide) (by decide)).1,
    (container_refill_total_only c3ram e0 c3inp (by decide) (by decide) (by decide)).2⟩

/-- Claim C4 counterexample: stopping the pump after 56496552 ms of
activity adds 0 to slot 0 and to the total, although the truncating
quotient elapsed times rate over 100000 is 65536: the assignment to the
uint16 local pumped discards the high bits, so the recorded delta is not
that quotient for every activation. -/
theorem stop_pump_delta_overflow_cex :
    56496552 * PUMP_WATER_SPEED / 100000 = 65536
  ∧ (stopPump c4ram e0).1.pumpedTotal = 0
  ∧ (stopPump c4ram e0).1.pumpStatistics.headD 0 = 0
  ∧ (0 : Nat) ≠ 65536 := by decide

/-- Claim C4 amended: whenever the truncating quotient fits in 16 bits
(every activation below roughly 15.7 hours), the delta added to slot 0
and to the total is exactly the quotient of elapsed times rate by
100000, and that quotient approximates elapsed times rate to within one
rounding unit of 100000 and is never negative. -/
theorem stop_pump_delta_fixed_point (r : Ram) (e : Eeprom)
    (hle : r.pumpStartedMs ≤ r.timeNow) (hlt : r.timeNow < U64)
    (hfit : (r.timeNow - r.pumpStartedMs) * PUMP_WATER_SPEED / 100000 < U16) :
    (stopPump r e).1.pumpStatistics
      = listAddHead ((r.timeNow - r.pumpStartedMs) * PUMP_WATER_SPEED / 100000) r.pumpStatistics
  ∧ (stopPump r e).1.pumpedTotal
      = (r.pumpedTotal + (r.timeNow - r.pumpStartedMs) * PUMP_WATER_SPEED / 100000) % U16
  ∧ ((r.timeNow - r.pumpStartedMs) * PUMP_WATER_SPEED / 100000) * 100000
      ≤ (r.timeNow - r.pumpStartedMs) * PUMP_WATER_SPEED
  ∧ (r.timeNow - r.pumpStartedMs) * PUMP_WATER_SPEED
      < (((r.timeNow - r.pumpStartedMs) * PUMP_WATER_SPEED / 100000) + 1) * 100000 := by
  have hsub : sub64 r.timeNow r.pumpStartedMs = r.timeNow - r.pumpStartedMs := by
    unfold U64 at hlt; unfold sub64 U64; omega
  simp only [PUMP_WATER_SPEED, U16] at hfit
  have hd := Nat.div_add_mod ((r.timeNow - r.pumpStartedMs) * 116) 100000
  have hm : (r.timeNow - r.pumpStartedMs) * 116 % 100000 < 100000 :=
    Nat.mod_lt _ (by norm_num)
  have h1 : (r.timeNow - r.pumpStartedMs) * 116 % U64 = (r.timeNow - r.pumpStartedMs) * 116 := by
    apply Nat.mod_eq_of_lt; unfold U64; omega
  have h2 : (r.timeNow - r.pumpStartedMs) * 116 / 100000 % U32
      = (r.timeNow - r.pumpStartedMs) * 116 / 100000 := by
    apply Nat.mod_eq_of_lt; unfold U32; omega
  have h3 : (r.timeNow - r.pumpStartedMs) * 116 / 100000 % U16
      = (r.timeNow - r.pumpStartedMs) * 116 / 100000 := by
    apply Nat.mod_eq_of_lt; unfold U16; omega
  refine ⟨?_, ?_, ?_, ?_⟩
  · simp [stopPump, msToMl, hsub, PUMP_WATER_SPEED, h1, h2, h3]
  · simp [stopPump, msToMl, hsub, PUMP_WATER_SPEED, h1, h2, h3]
  · simp only [PUMP_WATER_SPEED]; omega
  · simp only [PUMP_WATER_SPEED]; omega

/-- Claim C4 amended witness: stopping one millisecond past the
configured on-duration records exactly the 100 ml portion. -/
theorem stop_pump_delta_fixed_point_witness :
    (c4okRam.pumpStartedMs ≤ c4okRam.timeNow ∧ c4okRam.timeNow < U64
      ∧ (c4okRam.timeNow - c4okRam.pumpStartedMs) * PUMP_WATER_SPEED / 100000 < U16)
  ∧ (stopPump c4okRam e0).1.pumpedTotal
      = (c4okRam.pumpedTotal
          + (c4okRam.timeNow - c4okRam.pumpStartedMs) * PUMP_WATER_SPEED / 100000) % U16 :=
  ⟨⟨by decide, by decide, by decide⟩,
    (stop_pump_delta_fixed_point c4okRam e0 (by decide) (by decide) (by decide)).2.1⟩

/-- Claim C5: evaluation of the winter-revision clock-correction step at
a state with the heater Active, the pump off and the correction due: the
guard tests only the pump, so epochAtStart is adjusted (from 0 to 5000)
in a cycle in which an actuator is Active, against the stated intent. -/
theorem winter_clock_corrected_while_heater_active :
    winterHeaterRam.heaterRunning = true
  ∧ winterHeaterRam.pumpRunning = false
  ∧ winterHeaterRam.epochAtStart = 0
  ∧ (Winter.loopClockStep winterHeaterRam winterEeprom0 1694493605 3600001).1.epochAtStart = 5000
  ∧ (5000 : Nat) ≠ 0 := by
  refine ⟨rfl, rfl, rfl, ?_, by decide⟩
  decide

/-- Claim C6: the day-rollover step is the identity in any cycle whose
calendar day equals the stored day marker, and running the step twice
equals running it once, so two cycles on the same day value never
double-shift the statistics. -/
theorem day_rollover_idempotent (r : Ram) (e : Eeprom) :
    (r.dateDay = r.statisticsCurrentDay → loopDayStep r e = (r, e))
  ∧ loopDayStep (loopDayStep r e).1 (loopDayStep r e).2 = loopDayStep r e := by
  constructor
  · intro h; simp [loopDayStep, h]
  · by_cases h : r.dateDay = r.statisticsCurrentDay
    · simp [loopDayStep, h]
    · simp [loopDayStep, h, dayPassed]

/-- Claim C6 witness: a cycle whose day equals the marker leaves the
state untouched. -/
theorem day_rollover_idempotent_witness :
    bootRam.dateDay = bootRam.statisticsCurrentDay ∧ loopDayStep bootRam e0 = (bootRam, e0) :=
  ⟨by decide, (day_rollover_idempotent bootRam e0).1 (by decide)⟩

/-- Claim C7: loading from storage whose sentinel does not match yields
all-zero statistics slots and a zero total, stamps the sentinel, writes
the reset record back, and a second load is the identity on the state
the first load produced. -/
theorem load_resets_on_bad_sentinel (r : Ram) (e : Eeprom)
    (h : e.configured ≠ EEPROM_CHECKVALUE) :
    (readEeprom r e).1.pumpStatistics = List.replicate 24 0
  ∧ (readEeprom r e).1.pumpedTotal = 0
  ∧ (readEeprom r e).2.configured = EEPROM_CHECKVALUE
  ∧ (readEeprom r e).2 = saveEeprom (resetEEPROM r e).1 { e with configured := EEPROM_CHECKVALUE }
  ∧ readEeprom (readEeprom r e).1 (readEeprom r e).2 = readEeprom r e := by
  simp [readEeprom, resetEEPROM, saveEeprom, h]

/-- Claim C7 witness: first and second load on an erased image. -/
theorem load_resets_on_bad_sentinel_witness :
    blankEeprom.configured ≠ EEPROM_CHECKVALUE
  ∧ (readEeprom bootRam blankEeprom).1.pumpStatistics = List.replicate 24 0
  ∧ (readEeprom bootRam blankEeprom).1.pumpedTotal = 0
  ∧ (readEeprom bootRam blankEeprom).2.configured = EEPROM_CHECKVALUE
  ∧ readEeprom (readEeprom bootRam blankEeprom).1 (readEeprom bootRam blankEeprom).2
      = readEeprom bootRam blankEeprom :=
  ⟨by decide,
    (load_resets_on_bad_sentinel bootRam blankEeprom (by decide)).1,
    (load_resets_on_bad_sentinel bootRam blankEeprom (by decide)).2.1,
    (load_resets_on_bad_sentinel bootRam blankEeprom (by decide)).2.2.1,
    (load_resets_on_bad_sentinel bootRam blankEeprom (by decide)).2.2.2.2⟩

/-- Claim C8: on any state whose storage carries the stamped sentinel
(true of every reachable state, since boot-time load stamps it and no
operation erases it), save followed by load reproduces the in-memory
state exactly. -/
theorem save_load_roundtrip (r : Ram) (e : Eeprom)
    (h : e.configured = EEPROM_CHECKVALUE) :
    readEeprom r (saveEeprom r e) = (r, saveEeprom r e) := by
  simp [readEeprom, saveEeprom, h]

/-- Claim C8 witness: round trip on a concrete state. -/
theorem save_load_roundtrip_witness :
    e0.configured = EEPROM_CHECKVALUE
  ∧ readEeprom c8ram (saveEeprom c8ram e0) = (c8ram, saveEeprom c8ram e0) :=
  ⟨by decide, save_load_roundtrip c8ram e0 (by decide)⟩

/-- Claim C9: the saved record is independent of the force-stop and
motion-stop timestamps and flags, a load with matching sentinel leaves
all four untouched, and after a process restart followed by load the two
stop-cooldown predicates are false at every time, whatever the state
before shutdown was. -/
theorem cooldown_not_persisted (s : Ram) (e : Eeprom) (t v1 v2 : Nat) (b1 b2 : Bool)
    (h : e.configured = EEPROM_CHECKVALUE) :
    saveEeprom (cooldownUpdate s v1 v2 b1 b2) e = saveEeprom s e
  ∧ (readEeprom s e).1.forceStopStartedMs = s.forceStopStartedMs
  ∧ (readEeprom s e).1.motionStopStartedMs = s.motionStopStartedMs
  ∧ (readEeprom s e).1.wasForceStopped = s.wasForceStopped
  ∧ (readEeprom s e).1.wasMotionStopped = s.wasMotionStopped
  ∧ forceStoppedRecently { (readEeprom bootRam (saveEeprom s e)).1 with timeNow := t } = false
  ∧ motionStoppedRecently { (readEeprom bootRam (saveEeprom s e)).1 with timeNow := t } = false := by
  refine ⟨?_, ?_, ?_, ?_, ?_, ?_, ?_⟩ <;>
    simp [saveEeprom, readEeprom, resetEEPROM, forceStoppedRecently, motionStoppedRecently,
      bootRam, cooldownUpdate, h]

/-- Claim C9 witness: a state that was inside both cooldowns before
shutdown loses them across the restart. -/
theorem cooldown_not_persisted_witness :
    e0.configured = EEPROM_CHECKVALUE
  ∧ saveEeprom (cooldownUpdate c9ram 1 2 false false) e0 = saveEeprom c9ram e0
  ∧ forceStoppedRecently { (readEeprom bootRam (saveEeprom c9ram e0)).1 with timeNow := 7 } = false
  ∧ motionStoppedRecently { (readEeprom bootRam (saveEeprom c9ram e0)).1 with timeNow := 7 }
      = false :=
  ⟨by decide,
    (cooldown_not_persisted c9ram e0 7 1 2 false false (by decide)).1,
    (cooldown_not_persisted c9ram e0 7 1 2 false false (by decide)).2.2.2.2.2.1,
    (cooldown_not_persisted c9ram e0 7 1 2 false false (by decide)).2.2.2.2.2.2⟩

/-- Claim C10: when the idle duration has elapsed but the start guard
fails (latched wet level set, or cantStart true), the cycle re-arms the
wet latch from the current sensor reading, resets idleStartedMs to now,
keeps the pump off, and no later cycle within a further full idle
duration of that reset can start the pump. -/
theorem inhibited_start_postpones (r : Ram) (e : Eeprom)
    (hrun : r.pumpRunning = false)
    (hidle : idleTimePassed r = true)
    (hguard : (pumpWetStep r).maxWaterLevel = true ∨ cantStart (pumpWetStep r) = true) :
    (manageWaterPump r e).1.maxWaterLevel = r.waterLevel
  ∧ (manageWaterPump r e).1.idleStartedMs = r.timeNow
  ∧ (manageWaterPump r e).1.pumpRunning = false
  ∧ (manageWaterPump r e).2 = e
  ∧ ∀ r3 : Ram, r3.pumpRunning = false → r3.idleStartedMs = r.timeNow →
      sub64 r3.timeNow r.timeNow ≤ IDLE_TIME →
      (manageWaterPump r3 e).1.pumpRunning = false := by
  have hp : (pumpWetStep r).pumpRunning = false := by rw [(pumpWetStep_frame r).1, hrun]
  have hi : idleTimePassed (pumpWetStep r) = true := by rw [idleTimePassed_pumpWetStep, hidle]
  have hg : ((!(pumpWetStep r).maxWaterLevel) && (!cantStart (pumpWetStep r))) = false := by
    rcases hguard with h | h <;> simp [h]
  have hmw : manageWaterPump r e
      = ({ resetMaxWaterLevel (pumpWetStep r) with
            idleStartedMs := (pumpWetStep r).timeNow }, e) := by
    simp [manageWaterPump, hp, hi, hg]
  refine ⟨?_, ?_, ?_, ?_, ?_⟩
  · rw [hmw]; simp [resetMaxWaterLevel, (pumpWetStep_frame r).2.2.2.2.2]
  · rw [hmw]; simp [resetMaxWaterLevel, (pumpWetStep_frame r).2.1]
  · rw [hmw]; simp [resetMaxWaterLevel, hp]
  · rw [hmw]
  · intro r3 h3run h3idle h3le
    apply manageWaterPump_no_start r3 e h3run
    unfold idleTimePassed
    rw [h3idle]
    simp only [decide_eq_false_iff_not]
    omega

/-- Claim C10 witness: an inhibited start attempt with the wet latch set
resets the idle timer and keeps the pump off. -/
theorem inhibited_start_postpones_witness :
    (c10ram.pumpRunning = false ∧ idleTimePassed c10ram = true
      ∧ (pumpWetStep c10ram).maxWaterLevel = true)
  ∧ (manageWaterPump c10ram e0).1.idleStartedMs = c10ram.timeNow
  ∧ (manageWaterPump c10ram e0).1.pumpRunning = false :=
  ⟨⟨by decide, by decide, by decide⟩,
    (inhibited_start_postpones c10ram e0 (by decide) (by decide) (Or.inl (by decide))).2.1,
    (inhibited_start_postpones c10ram e0 (by decide) (by decide) (Or.inl (by decide))).2.2.1⟩

end Pulputin
